import Mathlib

/-!
# Verification of the `tomath` expression/formula library

This development shallowly embeds the Go package `tomath` (file `tomath.go`):
a wrapper around the `shopspring/decimal` fixed-point decimal library that,
alongside every arithmetic operation, eagerly builds two formula strings —
one over variable names (`vars`) and one over the values used (`formula`) —
so that `Math()` can report both, each terminated by `" = "` and the result's
name resp. value.

The embedding has two layers:

* `Dec`: the external decimal collaborator (`shopspring/decimal` v1.2.0,
  pinned by the repository), modelled as an integer coefficient together with
  a ten's exponent, `number = value * 10 ^ exp`, with the collaborator's
  documented algorithms for rescaling, addition, multiplication, truncated
  quotient/remainder (`big.Int` T-division), rounded division at a precision,
  half-away-from-zero rounding and the canonical fixed-point string form that
  trims trailing fractional zeros.
* `tomath.Decimal`: the Go struct `{parens, name, decimal, vars, formula}`
  and its operations, transcribed from the source.

Go mutations on value receivers are translated to functional record updates;
`fmt.Sprintf` format strings are translated to the string appends they
denote (each `%s`/`%d` verb spliced in place).
-/

/-- Truncated integer quotient, as computed by Go's `big.Int.Quo`:
the quotient is rounded toward zero. -/
def tquo (a b : Int) : Int :=
  a.sign * b.sign * (a.natAbs / b.natAbs : Nat)

/-- Truncated integer remainder, as computed by Go's `big.Int.Rem`
(and by the `r` output of `big.Int.QuoRem`): `r = a - b * (a quo b)`. -/
def trem (a b : Int) : Int :=
  a - b * tquo a b

/-- The decimal collaborator's value representation
(`shopspring/decimal.Decimal`): `number = value * 10 ^ exp`. The zero value
of the Go struct behaves as `0 * 10 ^ 0` (`ensureInitialized`). -/
structure Dec where
  value : Int
  exp : Int
  deriving Repr, DecidableEq

/-- `big.Int.Cmp`: `-1`, `0` or `1`. -/
def intCmp (a b : Int) : Int :=
  if a < b then -1 else if a = b then 0 else 1

/-- `decimal.Decimal.rescale`: change the exponent; scaling the coefficient
up is exact, scaling it down truncates (`big.Int.Quo`). -/
def Dec.rescale (d : Dec) (e : Int) : Dec :=
  if d.exp = e then d
  else if e > d.exp then ⟨tquo d.value ((10 : Int) ^ (e - d.exp).toNat), e⟩
  else ⟨d.value * (10 : Int) ^ (d.exp - e).toNat, e⟩

/-- `decimal.RescalePair`: rescale both numbers to the smaller exponent
(always exact). -/
def Dec.rescalePair (d d2 : Dec) : Dec × Dec :=
  let baseScale := min d.exp d2.exp
  (d.rescale baseScale, d2.rescale baseScale)

/-- `decimal.Decimal.Add`. -/
def Dec.add (d d2 : Dec) : Dec :=
  let p := Dec.rescalePair d d2
  ⟨p.1.value + p.2.value, p.1.exp⟩

/-- `decimal.Decimal.Sub`. -/
def Dec.sub (d d2 : Dec) : Dec :=
  let p := Dec.rescalePair d d2
  ⟨p.1.value - p.2.value, p.1.exp⟩

/-- `decimal.Decimal.Mul`. -/
def Dec.mul (d d2 : Dec) : Dec :=
  ⟨d.value * d2.value, d.exp + d2.exp⟩

/-- `decimal.Decimal.abs`. -/
def Dec.abs (d : Dec) : Dec :=
  ⟨|d.value|, d.exp⟩

/-- `decimal.Decimal.Neg`. -/
def Dec.neg (d : Dec) : Dec :=
  ⟨-d.value, d.exp⟩

/-- `decimal.Decimal.Cmp`. -/
def Dec.cmp (d d2 : Dec) : Int :=
  if d.exp = d2.exp then intCmp d.value d2.value
  else
    let p := Dec.rescalePair d d2
    intCmp p.1.value p.2.value

/-- `decimal.Decimal.QuoRem`: division with remainder at a precision.
`d = d2 * q + r`, `q` an integer multiple of `10 ^ (-precision)`, computed
through `big.Int.QuoRem` (truncated division, remainder signed like the
dividend). The Go code panics on division by zero; the claims never divide
by zero, and the model then returns `(0, 0)`-coefficient results. -/
def Dec.quoRem (d d2 : Dec) (precision : Int) : Dec × Dec :=
  let scale := -precision
  let e := d.exp - d2.exp - scale
  if e < 0 then
    let aa := d.value
    let bb := d2.value * (10 : Int) ^ (-e).toNat
    (⟨tquo aa bb, scale⟩, ⟨trem aa bb, d.exp⟩)
  else
    let aa := d.value * (10 : Int) ^ e.toNat
    let bb := d2.value
    (⟨tquo aa bb, scale⟩, ⟨trem aa bb, scale + d2.exp⟩)

/-- `decimal.Decimal.DivRound`: divide and round to a precision
(an integer multiple of `10 ^ (-precision)`), digit 5 rounded away
from zero. -/
def Dec.divRound (d d2 : Dec) (precision : Int) : Dec :=
  let qr := Dec.quoRem d d2 precision
  let c := Dec.cmp qr.2.abs (Dec.mul d2.abs ⟨5, -precision - 1⟩)
  if c < 0 then qr.1
  else if d.value.sign * d2.value.sign < 0 then Dec.sub qr.1 ⟨1, -precision⟩
  else Dec.add qr.1 ⟨1, -precision⟩

/-- `decimal.DivisionPrecision` (package default: 16 digits). -/
def DivisionPrecision : Int := 16

/-- `decimal.Decimal.Div`: `DivRound` at the default division precision. -/
def Dec.div (d d2 : Dec) : Dec :=
  Dec.divRound d d2 DivisionPrecision

/-- `decimal.Decimal.Mod`: the remainder of `QuoRem` at precision 0. -/
def Dec.mod (d d2 : Dec) : Dec :=
  (Dec.quoRem d d2 0).2

/-- `decimal.Decimal.Round`: round to `places` decimal places,
half away from zero (truncate to `places + 1`, add `±5`, floor-divide by
ten — `big.Int.DivMod` is Euclidean — then correct negatives upward). -/
def Dec.round (d : Dec) (places : Int) : Dec :=
  if d.exp = -places then d
  else
    let ret := Dec.rescale d (-places - 1)
    let v := if ret.value < 0 then ret.value - 5 else ret.value + 5
    let q := Int.ediv v 10
    let m := Int.emod v 10
    ⟨if q < 0 ∧ m ≠ 0 then q + 1 else q, ret.exp + 1⟩

/-- `decimal.Min` over a first element and the remaining arguments. -/
def Dec.minList (first : Dec) (rest : List Dec) : Dec :=
  rest.foldl (fun ans item => if Dec.cmp item ans < 0 then item else ans) first

/-- `decimal.Max` over a first element and the remaining arguments. -/
def Dec.maxList (first : Dec) (rest : List Dec) : Dec :=
  rest.foldl (fun ans item => if Dec.cmp item ans > 0 then item else ans) first

/-- `decimal.Sum` over a first element and the remaining arguments. -/
def Dec.sumList (first : Dec) (rest : List Dec) : Dec :=
  rest.foldl Dec.add first

/-- `decimal.Avg`: the sum divided by the operand count. -/
def Dec.avgList (first : Dec) (rest : List Dec) : Dec :=
  Dec.div (Dec.sumList first rest) ⟨(rest.length : Int) + 1, 0⟩

/-- `big.Int.String`: decimal digits, `-` sign for negatives. -/
def intStr (i : Int) : String :=
  if i < 0 then "-" ++ Nat.repr i.natAbs else Nat.repr i.natAbs

/-- `decimal.Decimal.String` (via `string(trimTrailingZeros = true)`):
the canonical fixed-point text with no exponent notation; trailing zeros of
the fractional part are trimmed, the point dropped when nothing remains. -/
def Dec.str (d : Dec) : String :=
  if 0 ≤ d.exp then intStr (Dec.rescale d 0).value
  else
    let dig := (Nat.repr d.value.natAbs).data
    let n := (-d.exp).toNat
    let ip : List Char := if dig.length > n then dig.take (dig.length - n) else ['0']
    let fp : List Char :=
      if dig.length > n then dig.drop (dig.length - n)
      else List.replicate (n - dig.length) '0' ++ dig
    let fp2 := (fp.reverse.dropWhile (fun c => c = '0')).reverse
    let number := if fp2.length > 0 then ip ++ '.' :: fp2 else ip
    if d.value < 0 then ⟨'-' :: number⟩ else ⟨number⟩

-- Sanity checks of the collaborator model against the repository's
-- test expectations for the wrapped decimal values.
example : Dec.str ⟨0, 0⟩ = "0" := by decide
example : Dec.str ⟨11, -1⟩ = "1.1" := by decide
example : Dec.str ⟨22, -4⟩ = "0.0022" := by decide
example : Dec.str (Dec.div ⟨31, -1⟩ ⟨2, 0⟩) = "1.55" := by decide

/-- `strings.Join`: the elements separated by `sep` (empty for the empty
list, the sole element for a singleton). -/
def joinSep (sep : String) : List String → String
  | [] => ""
  | x :: xs => xs.foldl (fun acc y => acc ++ sep ++ y) x

/-- The parenthesization the binary operators' four-way `fmt` format-string
selection denotes: an operand's text is wrapped in `(`…`)` exactly when its
`parens` flag is set. -/
def parenWrap (p : Bool) (s : String) : String :=
  if p then "(" ++ s ++ ")" else s

/-- The Go struct `tomath.Decimal`: the wrapped decimal value, an optional
name, the two eagerly built formula strings, and the `parens` bit meaning
"this node is the result of `Add` or `Sub`". The Go zero value has all
fields zero/empty. -/
structure tomath.Decimal where
  parens : Bool := false
  name : String := ""
  decimal : Dec := ⟨0, 0⟩
  vars : String := ""
  formula : String := ""
  deriving Repr, DecidableEq

/-- Go `New(value, exp)`: a fresh unnamed leaf; `formula` is seeded with the
decimal's canonical string, `vars` and `name` stay empty. -/
def tomath.New (value : Int) (exp : Int) : tomath.Decimal :=
  { decimal := ⟨value, exp⟩, formula := Dec.str ⟨value, exp⟩ }

/-- Go `NewWithName(name, value, exp)`: a fresh named leaf; `vars` is seeded
with the name, `formula` with the decimal's canonical string. The other
`...WithName` constructors (`NewFromInt`, `NewFromFloat`, …) build the same
record from their converted decimal; e.g. `NewFromFloatWithName("var1", 1.1)`
equals `NewWithName "var1" 11 (-1)` because the float 1.1 converts to the
decimal with coefficient 11 and exponent -1. -/
def tomath.NewWithName (name : String) (value : Int) (exp : Int) : tomath.Decimal :=
  { name := name, decimal := ⟨value, exp⟩, vars := name, formula := Dec.str ⟨value, exp⟩ }

/-- Go `SetName`: sets the name; additionally, when the names-formula `vars`
is still empty, seeds it with the new name. -/
def tomath.Decimal.SetName (d : Decimal) (name : String) : Decimal :=
  { d with name := name, vars := if d.vars = "" then name else d.vars }

/-- Go `GetName`. -/
def tomath.Decimal.GetName (d : Decimal) : String :=
  d.name

/-- Go `String()`: forwards to the wrapped decimal's canonical string. -/
def tomath.Decimal.str (d : Decimal) : String :=
  Dec.str d.decimal

/-- Go `Resolve`: replaces the underlying math with the current name and
value — a composite literal keeping only `name`, `vars := name`,
`formula := d.String()` and the decimal (so `parens` resets to false). -/
def tomath.Decimal.Resolve (d : Decimal) : Decimal :=
  { name := d.name, vars := d.name, formula := d.str, decimal := d.decimal }

/-- Go `ResolveTo`: `SetName` then `Resolve`. -/
def tomath.Decimal.ResolveTo (d : Decimal) (name : String) : Decimal :=
  (d.SetName name).Resolve

/-- Go `Math()`: returns the two formula strings, each extended with
`" = "` and the name resp. the decimal's string. Empty name and `vars`
render as `"?"`; an empty `formula` falls back to the decimal's string.
The receiver is passed by value in Go, so the in-place updates inside the
method act on a copy; they are translated to the local bindings below. -/
def tomath.Decimal.Math (d : Decimal) : String × String :=
  let name := if d.name = "" then "?" else d.name
  let vars := if d.vars = "" then "?" else d.vars
  let formula := if d.formula = "" then d.str else d.formula
  (vars ++ " = " ++ name, formula ++ " = " ++ Dec.str d.decimal)

/-- Go `Add`: unconditional infix `" + "`, result flagged `parens`. -/
def tomath.Decimal.Add (d d2 : Decimal) : Decimal :=
  { decimal := Dec.add d.decimal d2.decimal,
    vars := d.vars ++ " + " ++ d2.vars,
    formula := d.formula ++ " + " ++ d2.formula,
    parens := true }

/-- Go `Sub`: unconditional infix `" - "` (no parenthesization of either
operand), result flagged `parens`. -/
def tomath.Decimal.Sub (d d2 : Decimal) : Decimal :=
  { decimal := Dec.sub d.decimal d2.decimal,
    vars := d.vars ++ " - " ++ d2.vars,
    formula := d.formula ++ " - " ++ d2.formula,
    parens := true }

/-- Go `Mul`: each operand wrapped iff its `parens` flag is set
(the four-way format-string selection), result's `parens` false. -/
def tomath.Decimal.Mul (d d2 : Decimal) : Decimal :=
  { decimal := Dec.mul d.decimal d2.decimal,
    vars := parenWrap d.parens d.vars ++ " * " ++ parenWrap d2.parens d2.vars,
    formula := parenWrap d.parens d.formula ++ " * " ++ parenWrap d2.parens d2.formula }

/-- Go `Div`: same four-way format-string selection with `" / "`. -/
def tomath.Decimal.Div (d d2 : Decimal) : Decimal :=
  { decimal := Dec.div d.decimal d2.decimal,
    vars := parenWrap d.parens d.vars ++ " / " ++ parenWrap d2.parens d2.vars,
    formula := parenWrap d.parens d.formula ++ " / " ++ parenWrap d2.parens d2.formula }

/-- Go `Mod`: same four-way format-string selection with `" % "`. -/
def tomath.Decimal.Mod (d d2 : Decimal) : Decimal :=
  { decimal := Dec.mod d.decimal d2.decimal,
    vars := parenWrap d.parens d.vars ++ " % " ++ parenWrap d2.parens d2.vars,
    formula := parenWrap d.parens d.formula ++ " % " ++ parenWrap d2.parens d2.formula }

/-- Go `QuoRem`: both result nodes share the `quoRem(<precision>)(… / …)`
text verbatim; the quotient is named `<name><name2>Quotient`, the remainder
`<name><name2>Remainder`. -/
def tomath.Decimal.QuoRem (d d2 : Decimal) (precision : Int) : Decimal × Decimal :=
  let qr := Dec.quoRem d.decimal d2.decimal precision
  let vars := "quoRem(" ++ intStr precision ++ ")(" ++ parenWrap d.parens d.vars
    ++ " / " ++ parenWrap d2.parens d2.vars ++ ")"
  let formula := "quoRem(" ++ intStr precision ++ ")(" ++ parenWrap d.parens d.formula
    ++ " / " ++ parenWrap d2.parens d2.formula ++ ")"
  ({ name := d.name ++ d2.name ++ "Quotient", decimal := qr.1, vars := vars, formula := formula },
   { name := d.name ++ d2.name ++ "Remainder", decimal := qr.2, vars := vars, formula := formula })

/-- Go `DivRound`: prefix `divRound(<precision>)(… / …)` with the same
four-way parenthesization of the operands. -/
def tomath.Decimal.DivRound (d d2 : Decimal) (precision : Int) : Decimal :=
  { decimal := Dec.divRound d.decimal d2.decimal precision,
    vars := "divRound(" ++ intStr precision ++ ")(" ++ parenWrap d.parens d.vars
      ++ " / " ++ parenWrap d2.parens d2.vars ++ ")",
    formula := "divRound(" ++ intStr precision ++ ")(" ++ parenWrap d.parens d.formula
      ++ " / " ++ parenWrap d2.parens d2.formula ++ ")" }

/-- Go `Round`: prefix `round(<places>)(…)` around both texts. -/
def tomath.Decimal.Round (d : Decimal) (places : Int) : Decimal :=
  { decimal := Dec.round d.decimal places,
    vars := "round(" ++ intStr places ++ ")(" ++ d.vars ++ ")",
    formula := "round(" ++ intStr places ++ ")(" ++ d.formula ++ ")" }

/-- Go package-level `Min(first, rest...)`: `min(`, the operands' texts
joined by `", "` in argument order, `)`. -/
def tomath.Min (first : Decimal) (rest : List Decimal) : Decimal :=
  { decimal := Dec.minList first.decimal (rest.map (fun r => r.decimal)),
    vars := "min(" ++ joinSep ", " (first.vars :: rest.map (fun r => r.vars)) ++ ")",
    formula := "min(" ++ joinSep ", " (first.formula :: rest.map (fun r => r.formula)) ++ ")" }

/-- Go package-level `Max(first, rest...)`. -/
def tomath.Max (first : Decimal) (rest : List Decimal) : Decimal :=
  { decimal := Dec.maxList first.decimal (rest.map (fun r => r.decimal)),
    vars := "max(" ++ joinSep ", " (first.vars :: rest.map (fun r => r.vars)) ++ ")",
    formula := "max(" ++ joinSep ", " (first.formula :: rest.map (fun r => r.formula)) ++ ")" }

/-- Go package-level `Sum(first, rest...)`. -/
def tomath.Sum (first : Decimal) (rest : List Decimal) : Decimal :=
  { decimal := Dec.sumList first.decimal (rest.map (fun r => r.decimal)),
    vars := "sum(" ++ joinSep ", " (first.vars :: rest.map (fun r => r.vars)) ++ ")",
    formula := "sum(" ++ joinSep ", " (first.formula :: rest.map (fun r => r.formula)) ++ ")" }

/-- Go package-level `Avg(first, rest...)`. -/
def tomath.Avg (first : Decimal) (rest : List Decimal) : Decimal :=
  { decimal := Dec.avgList first.decimal (rest.map (fun r => r.decimal)),
    vars := "avg(" ++ joinSep ", " (first.vars :: rest.map (fun r => r.vars)) ++ ")",
    formula := "avg(" ++ joinSep ", " (first.formula :: rest.map (fun r => r.formula)) ++ ")" }

-- Sanity checks against the repository's own test expectations.
example : (tomath.New 0 0).Math = ("? = ?", "0 = 0") := by decide
example : ((tomath.NewWithName "var1" (-1) 0).Add (tomath.NewWithName "var2" 0 0)).Math
    = ("var1 + var2 = ?", "-1 + 0 = -1") := by decide
example : ((tomath.NewWithName "var1" 4333 (-3)).DivRound (tomath.NewWithName "var2" 27 (-1)) 3).Math
    = ("divRound(3)(var1 / var2) = ?", "divRound(3)(4.333 / 2.7) = 1.605") := by decide
example :
    (tomath.Avg (tomath.NewWithName "var1" 1 0)
      [tomath.NewWithName "var2" 2 0, tomath.NewWithName "var3" 100 0]).Math
    = ("avg(var1, var2, var3) = ?", "avg(1, 2, 100) = 34.3333333333333333") := by decide
example :
    (tomath.Min (tomath.NewWithName "var1" 1 0)
      [tomath.NewWithName "var2" 2 0, tomath.NewWithName "var3" 100 0]).Math
    = ("min(var1, var2, var3) = ?", "min(1, 2, 100) = 1") := by decide

/-! ## Helper lemmas about string emptiness and `Math` -/

theorem append_ne_empty_of_left (s t : String) (h : s ≠ "") : s ++ t ≠ "" := by
  intro e
  apply h
  have e2 : s.data ++ t.data = [] := by
    have e3 := congrArg String.data e
    simpa using e3
  rcases List.append_eq_nil.mp e2 with ⟨h1, _⟩
  cases s
  simp_all

theorem append_ne_empty_of_right (s t : String) (h : t ≠ "") : s ++ t ≠ "" := by
  intro e
  apply h
  have e2 : s.data ++ t.data = [] := by
    have e3 := congrArg String.data e
    simpa using e3
  rcases List.append_eq_nil.mp e2 with ⟨_, h2⟩
  cases t
  simp_all

/-- On a node whose `name`, `vars` and `formula` are all nonempty, `Math`
is plain concatenation: no `?` placeholder and no fallback to the decimal's
string are involved. -/
theorem math_of_nonempty (d : tomath.Decimal) (h1 : d.name ≠ "") (h2 : d.vars ≠ "")
    (h3 : d.formula ≠ "") :
    d.Math = (d.vars ++ " = " ++ d.name, d.formula ++ " = " ++ Dec.str d.decimal) := by
  unfold tomath.Decimal.Math
  simp [h1, h2, h3]

/-! ## Claim theorems -/

/-- C1: building, from leaves `var1 = 1.1`, `var2 = 1`, `var3 = 2`,
`var4 = 2`, the chain `round(1)(var1)`, adding `var2` twice, dividing by
`var3`, multiplying by `var4`, and naming the result `var5`, then rendering
with `Math`, yields the names-formula
`"(round(1)(var1) + var2 + var2) / var3 * var4 = var5"` and the
values-formula `"(round(1)(1.1) + 1 + 1) / 2 * 2 = 3.1"`. -/
theorem complexExample_math :
    (((((((tomath.NewWithName "var1" 11 (-1)).Round 1).Add
        (tomath.NewWithName "var2" 1 0)).Add
        (tomath.NewWithName "var2" 1 0)).Div
        (tomath.NewWithName "var3" 2 0)).Mul
        (tomath.NewWithName "var4" 2 0)).SetName "var5").Math
    = ("(round(1)(var1) + var2 + var2) / var3 * var4 = var5",
       "(round(1)(1.1) + 1 + 1) / 2 * 2 = 3.1") := by decide

/-- C10: the zero-value `Decimal` behaves as the number 0 with no name:
`String()` returns `"0"`, and `Math()` returns `"? = ?"` as the
names-formula and `"0 = 0"` as the values-formula. -/
theorem zero_value_behavior :
    tomath.Decimal.str {} = "0" ∧ tomath.Decimal.Math {} = ("? = ?", "0 = 0") := by
  decide

/-- Two successive calls of `Math()` on the same node, translated from Go:
the receiver is passed by value, so the assignments inside the method act on
a private copy and the second call receives the same record as the first. -/
def tomath.Decimal.mathTwice (d : Decimal) : (String × String) × (String × String) :=
  (d.Math, d.Math)

/-- C3: rendering is idempotent — for every `Decimal` `n`, calling `Math()`
on `n` twice returns the identical pair of strings both times, and the
second call's result does not depend on the first call having happened
(the receiver is a value copy, so the first call leaves `n` untouched). -/
theorem math_idempotent (n : tomath.Decimal) :
    n.mathTwice.1 = n.mathTwice.2 ∧ n.mathTwice.2 = n.Math :=
  ⟨rfl, rfl⟩

/-- C4: resolution round-trip — for every node `n` and nonempty name `x`,
resolving after naming preserves the decimal value, and rendering the
resolved node yields exactly `"x = x"` (names) and `"<v> = <v>"` (values),
where `<v>` is `n`'s canonical decimal string. -/
theorem resolve_roundTrip (n : tomath.Decimal) (x : String) (h : x ≠ "") :
    ((n.SetName x).Resolve).decimal = n.decimal ∧
    ((n.SetName x).Resolve).Math = (x ++ " = " ++ x, n.str ++ " = " ++ n.str) := by
  refine ⟨rfl, ?_⟩
  show tomath.Decimal.Math
      { name := x, vars := x, formula := Dec.str n.decimal, decimal := n.decimal }
    = (x ++ " = " ++ x, tomath.Decimal.str n ++ " = " ++ tomath.Decimal.str n)
  unfold tomath.Decimal.Math
  simp [h, tomath.Decimal.str]

/-- Witness for C4 at `n = 2.1`, `x = "x"`. -/
theorem resolve_roundTrip_witness :
    (((tomath.New 21 (-1)).SetName "x").Resolve).decimal = (tomath.New 21 (-1)).decimal ∧
    (((tomath.New 21 (-1)).SetName "x").Resolve).Math = ("x = x", "2.1 = 2.1") := by
  have h := resolve_roundTrip (tomath.New 21 (-1)) "x" (by decide)
  refine ⟨h.1, ?_⟩
  rw [h.2]
  decide

/-- C5, counterexample: resolving the unnamed node `New 5 0` is not a
fatal/programmer error — `Resolve` returns an ordinary unnamed leaf record,
which then renders with the `?` placeholder. -/
theorem resolve_unnamed_counterexample :
    (tomath.New 5 0).Resolve
      = { name := "", vars := "", formula := "5", decimal := ⟨5, 0⟩ } ∧
    ((tomath.New 5 0).Resolve).Math = ("? = ?", "5 = 5") := by decide

/-- C5, amended: `Resolve` never fails. For every node (named or not) it
returns a brand-new leaf-style record whose `decimal` and `name` equal the
node's, whose `vars` is the name and whose `formula` is the node's canonical
decimal string; resolving an unnamed node yields an unnamed leaf that
renders as `"? = ?"` / `"<v> = <v>"` rather than an error. -/
theorem resolve_total_amended (d : tomath.Decimal) :
    d.Resolve.decimal = d.decimal ∧ d.Resolve.name = d.name ∧
    d.Resolve.vars = d.name ∧ d.Resolve.formula = d.str ∧
    (d.name = "" → d.Resolve.Math = ("? = ?", d.str ++ " = " ++ d.str)) := by
  refine ⟨rfl, rfl, rfl, rfl, fun h => ?_⟩
  show tomath.Decimal.Math
      { name := d.name, vars := d.name, formula := Dec.str d.decimal, decimal := d.decimal }
    = ("? = ?", tomath.Decimal.str d ++ " = " ++ tomath.Decimal.str d)
  unfold tomath.Decimal.Math
  simp [h, tomath.Decimal.str]

/-- Witness for C5's amended theorem at the unnamed node `New 7 0`. -/
theorem resolve_total_amended_witness :
    (tomath.New 7 0).Resolve.decimal = (tomath.New 7 0).decimal ∧
    (tomath.New 7 0).Resolve.Math = ("? = ?", "7 = 7") := by
  have h := resolve_total_amended (tomath.New 7 0)
  refine ⟨h.1, ?_⟩
  rw [h.2.2.2.2 (by decide)]
  decide

/-- C6, counterexample: `SetName` does not leave every field but `name`
unchanged — on a node whose `vars` is empty (here the unnamed leaf
`New 5 0`), it also seeds `vars` with the new name. -/
theorem setName_counterexample :
    ((tomath.New 5 0).SetName "x").vars ≠ (tomath.New 5 0).vars ∧
    ((tomath.New 5 0).SetName "x").vars = "x" ∧ (tomath.New 5 0).vars = "" := by
  decide

/-- C6, amended: `SetName(n, s)` returns a node whose `name` is `s` and
whose `decimal` value, values-formula text and `parens` flag are unchanged;
the names-formula text `vars` is unchanged when it was nonempty, but is
seeded with `s` when it was empty. -/
theorem setName_amended (d : tomath.Decimal) (s : String) :
    (d.SetName s).name = s ∧ (d.SetName s).decimal = d.decimal ∧
    (d.SetName s).formula = d.formula ∧ (d.SetName s).parens = d.parens ∧
    (d.SetName s).vars = (if d.vars = "" then s else d.vars) :=
  ⟨rfl, rfl, rfl, rfl, rfl⟩

/-- C2, counterexample: the right operand of `Sub` is never parenthesized,
even when it is itself a `Sub` — `sub(a, sub(b, c))` renders as
`"a - b - c"`, not as `"a - (b - c)"`. -/
theorem sub_nested_counterexample :
    ((tomath.NewWithName "a" 5 0).Sub
      ((tomath.NewWithName "b" 3 0).Sub (tomath.NewWithName "c" 1 0))).vars
      = "a - b - c" ∧
    ((tomath.NewWithName "a" 5 0).Sub
      ((tomath.NewWithName "b" 3 0).Sub (tomath.NewWithName "c" 1 0))).vars
      ≠ "a - (b - c)" := by decide

/-- C2, amended: an operand of the infix operators `Mul`, `Div` and `Mod`
is parenthesized exactly when its `parens` flag is set, and the flag is set
only on `Add`/`Sub` results (all other constructors leave it false). So a
`div`/`mod` whose right operand is additive does get parentheses, but an
equal-precedence right operand (`div` under `div`, `mod` under `mod`) does
not, and `sub` never parenthesizes either operand: `sub(a, sub(b, c))`
renders `"a - b - c"`. -/
theorem right_parenthesization_amended (a b c : tomath.Decimal) :
    (a.Sub (b.Sub c)).vars = a.vars ++ " - " ++ (b.vars ++ " - " ++ c.vars) ∧
    (a.Div (b.Sub c)).vars
      = parenWrap a.parens a.vars ++ " / " ++ ("(" ++ (b.vars ++ " - " ++ c.vars) ++ ")") ∧
    (a.Mod (b.Add c)).vars
      = parenWrap a.parens a.vars ++ " % " ++ ("(" ++ (b.vars ++ " + " ++ c.vars) ++ ")") ∧
    (a.Div (b.Div c)).vars = parenWrap a.parens a.vars ++ " / " ++ (b.Div c).vars ∧
    (a.Mod (b.Mod c)).vars = parenWrap a.parens a.vars ++ " % " ++ (b.Mod c).vars ∧
    (a.Add b).parens = true ∧ (a.Sub b).parens = true ∧
    (a.Mul b).parens = false ∧ (a.Div b).parens = false ∧ (a.Mod b).parens = false ∧
    (tomath.New 5 0).parens = false ∧ (tomath.NewWithName "x" 5 0).parens = false :=
  ⟨rfl, rfl, rfl, rfl, rfl, rfl, rfl, rfl, rfl, rfl, rfl, rfl⟩

/-- C7: the quotient and remainder nodes returned by `QuoRem` carry
identical `quoRem(<p>)(<left> / <right>)` texts in both streams, so both
rendered formulas agree up to the final `" = "`, after which only the
quotient/remainder name (names stream) resp. decimal value (values stream)
differ; concretely, `quoRem(4.333, 2.7, precision = 3)` yields a quotient
values-formula ending `"= 1.604"` and a remainder values-formula ending
`"= 0.0022"` with identical left-hand-side text. -/
theorem quoRem_shared_lhs (d d2 : tomath.Decimal) (p : Int) :
    ((d.QuoRem d2 p).1).vars = ((d.QuoRem d2 p).2).vars ∧
    ((d.QuoRem d2 p).1).formula = ((d.QuoRem d2 p).2).formula ∧
    ((d.QuoRem d2 p).1).Math
      = (((d.QuoRem d2 p).1).vars ++ " = " ++ (d.name ++ d2.name ++ "Quotient"),
         ((d.QuoRem d2 p).1).formula ++ " = " ++ Dec.str ((d.QuoRem d2 p).1).decimal) ∧
    ((d.QuoRem d2 p).2).Math
      = (((d.QuoRem d2 p).2).vars ++ " = " ++ (d.name ++ d2.name ++ "Remainder"),
         ((d.QuoRem d2 p).2).formula ++ " = " ++ Dec.str ((d.QuoRem d2 p).2).decimal) ∧
    (((tomath.NewWithName "var1" 4333 (-3)).QuoRem (tomath.NewWithName "var2" 27 (-1)) 3).1).Math
      = ("quoRem(3)(var1 / var2) = var1var2Quotient", "quoRem(3)(4.333 / 2.7) = 1.604") ∧
    (((tomath.NewWithName "var1" 4333 (-3)).QuoRem (tomath.NewWithName "var2" 27 (-1)) 3).2).Math
      = ("quoRem(3)(var1 / var2) = var1var2Remainder", "quoRem(3)(4.333 / 2.7) = 0.0022") := by
  have hvars : ((d.QuoRem d2 p).1).vars ≠ "" := by
    show ("quoRem(" ++ intStr p ++ ")(" ++ parenWrap d.parens d.vars
      ++ " / " ++ parenWrap d2.parens d2.vars ++ ")") ≠ ""
    apply append_ne_empty_of_left
    apply append_ne_empty_of_left
    apply append_ne_empty_of_left
    apply append_ne_empty_of_left
    apply append_ne_empty_of_left
    apply append_ne_empty_of_left
    decide
  have hformula : ((d.QuoRem d2 p).1).formula ≠ "" := by
    show ("quoRem(" ++ intStr p ++ ")(" ++ parenWrap d.parens d.formula
      ++ " / " ++ parenWrap d2.parens d2.formula ++ ")") ≠ ""
    apply append_ne_empty_of_left
    apply append_ne_empty_of_left
    apply append_ne_empty_of_left
    apply append_ne_empty_of_left
    apply append_ne_empty_of_left
    apply append_ne_empty_of_left
    decide
  have hq : ((d.QuoRem d2 p).1).name ≠ "" := by
    show (d.name ++ d2.name ++ "Quotient") ≠ ""
    apply append_ne_empty_of_right
    decide
  have hr : ((d.QuoRem d2 p).2).name ≠ "" := by
    show (d.name ++ d2.name ++ "Remainder") ≠ ""
    apply append_ne_empty_of_right
    decide
  exact ⟨rfl, rfl, math_of_nonempty _ hq hvars hformula,
    math_of_nonempty _ hr hvars hformula, by decide, by decide⟩

/-- C8: for every variadic call `Min`/`Max`/`Sum`/`Avg` over one or more
operands, both rendered texts consist of the operator symbol, `(`, the
operands' own texts in argument order joined by `", "`, and `)`; no operand
text is individually parenthesized, even when the operand is the result of
a binary operation (witnessed here by an `Add` result entering a `Sum`
unwrapped although its `parens` flag is set). -/
theorem variadic_listing (first : tomath.Decimal) (rest : List tomath.Decimal)
    (a b c : tomath.Decimal) :
    (tomath.Min first rest).vars
      = "min(" ++ joinSep ", " (first.vars :: rest.map tomath.Decimal.vars) ++ ")" ∧
    (tomath.Min first rest).formula
      = "min(" ++ joinSep ", " (first.formula :: rest.map tomath.Decimal.formula) ++ ")" ∧
    (tomath.Max first rest).vars
      = "max(" ++ joinSep ", " (first.vars :: rest.map tomath.Decimal.vars) ++ ")" ∧
    (tomath.Max first rest).formula
      = "max(" ++ joinSep ", " (first.formula :: rest.map tomath.Decimal.formula) ++ ")" ∧
    (tomath.Sum first rest).vars
      = "sum(" ++ joinSep ", " (first.vars :: rest.map tomath.Decimal.vars) ++ ")" ∧
    (tomath.Sum first rest).formula
      = "sum(" ++ joinSep ", " (first.formula :: rest.map tomath.Decimal.formula) ++ ")" ∧
    (tomath.Avg first rest).vars
      = "avg(" ++ joinSep ", " (first.vars :: rest.map tomath.Decimal.vars) ++ ")" ∧
    (tomath.Avg first rest).formula
      = "avg(" ++ joinSep ", " (first.formula :: rest.map tomath.Decimal.formula) ++ ")" ∧
    (tomath.Sum a [b.Add c]).vars
      = "sum(" ++ (a.vars ++ ", " ++ (b.vars ++ " + " ++ c.vars)) ++ ")" ∧
    (b.Add c).parens = true :=
  ⟨rfl, rfl, rfl, rfl, rfl, rfl, rfl, rfl, rfl, rfl⟩
